import Mathlib

/-!
Shallow embedding of the core logic of `app_hybrid_final_v8.py`
(mental-health-predictor): feature encoding, hybrid classification with
rule-based overrides and confidence blending, and tip generation.

Numeric model: slider integers are `ℕ`; sleep duration (a float slider)
and all confidence scores are `ℚ`, giving exact arithmetic for the
0.3 / 0.7 blending constants. Fallible Python operations
(`np.argmax` on an empty array, `dict[...]` lookup, `list.index`,
list item assignment) are embedded in `Except String`.
-/

namespace MentalHealth

/-- Gender option of the form's selectbox (`["Male", "Female"]`). -/
inductive Gender
  | Male
  | Female
deriving DecidableEq

/-- The string the selectbox hands to the script. -/
def Gender.toStr : Gender → String
  | .Male => "Male"
  | .Female => "Female"

/-- BMI option of the form's selectbox
(`["Underweight", "Normal", "Overweight", "Obese"]`). -/
inductive BMICategory
  | Underweight
  | Normal
  | Overweight
  | Obese
deriving DecidableEq

/-- The string the selectbox hands to the script. -/
def BMICategory.toStr : BMICategory → String
  | .Underweight => "Underweight"
  | .Normal => "Normal"
  | .Overweight => "Overweight"
  | .Obese => "Obese"

/-- One form submission's raw inputs (the widgets of the prediction form). -/
structure UserInput where
  gender : Gender
  age : ℕ
  sleepDuration : ℚ
  qualityOfSleep : ℕ
  physicalActivity : ℕ
  stressLevel : ℕ
  bmiCategory : BMICategory
  dailySteps : ℕ
deriving DecidableEq

/-- Line 68: `gender_val = 1 if gender == "Male" else 0`. -/
def gender_val (g : Gender) : ℚ :=
  if g.toStr = "Male" then 1 else 0

/-- The option list of the BMI selectbox, as used by
`["Underweight", "Normal", "Overweight", "Obese"].index(bmi_category)`. -/
def bmiOptions : List String :=
  ["Underweight", "Normal", "Overweight", "Obese"]

/-- Line 69: `bmi_val = [...].index(bmi_category)`. The four selectbox
values are all members of the list, so `.index` cannot raise here. -/
def bmi_val (b : BMICategory) : ℚ :=
  (bmiOptions.indexOf b.toStr : ℚ)

/-- Lines 71-72: `input_data = np.array([[gender_val, age, sleep_duration, quality_of_sleep,
physical_activity, stress_level, bmi_val, daily_steps]])`:
the 8-element feature vector, in the source's order. -/
def input_data (u : UserInput) : List ℚ :=
  [gender_val u.gender, (u.age : ℚ), u.sleepDuration, (u.qualityOfSleep : ℚ),
   (u.physicalActivity : ℚ), (u.stressLevel : ℚ), bmi_val u.bmiCategory,
   (u.dailySteps : ℚ)]

/-- Line 79: the label dictionary mapping 0 to "No Disorder", 1 to
"Anxiety" and 2 to "Depression", as an insertion-ordered association
list. -/
def label_map : List (ℕ × String) :=
  [(0, "No Disorder"), (1, "Anxiety"), (2, "Depression")]

/-- Line 96: `list(label_map.values())`. -/
def labelMapValues : List String :=
  label_map.map Prod.snd

/-- Scan of `np.argmax`: first index of the maximum (later entries must be
strictly greater to replace the current best). -/
def argmaxAux : List ℚ → ℕ → ℕ → ℚ → ℕ
  | [], _, best, _ => best
  | x :: xs, i, best, bv =>
      if x > bv then argmaxAux xs (i + 1) i x else argmaxAux xs (i + 1) best bv

/-- Line 76: `np.argmax(prediction)`, the first index of the maximum entry;
raises on an empty array. -/
def npArgmax : List ℚ → Except String ℕ
  | [] => .error "attempt to get argmax of an empty sequence"
  | x :: xs => .ok (argmaxAux xs 1 0 x)

/-- Line 103: `np.max(confidence_scores)`, the maximum entry; raises on an
empty array. -/
def npMax : List ℚ → Except String ℚ
  | [] => .error "zero-size array reduction"
  | x :: xs => .ok (xs.foldl max x)

/-- Python `values.index(s)` (line 96): position of `s`, raising when `s`
is not a member. -/
def listIndex (l : List String) (s : String) : Except String ℕ :=
  if s ∈ l then .ok (l.indexOf s) else .error "x not in list"

/-- Python `xs[i] = v` on a list (line 98): in-place update, raising when
`i` is out of range (the index here is never negative). -/
def setAt (l : List ℚ) (i : ℕ) (v : ℚ) : Except String (List ℚ) :=
  if i < l.length then .ok (l.set i v) else .error "list assignment index out of range"

/-- The rule-based override ladder (lines 83-90), first match wins:
stress ≥ 9 and sleep quality ≤ 3 give "Anxiety"; else short sleep, low
activity and stress ≥ 6 give "Depression"; else calm, well-rested, active
inputs give "No Disorder"; else no override. -/
def overrideRule (u : UserInput) : Option String :=
  if 9 ≤ u.stressLevel ∧ u.qualityOfSleep ≤ 3 then some "Anxiety"
  else if u.sleepDuration ≤ 4 ∧ u.physicalActivity ≤ 2 ∧ 6 ≤ u.stressLevel then
    some "Depression"
  else if u.stressLevel ≤ 3 ∧ 7 ≤ u.sleepDuration ∧ 7 ≤ u.qualityOfSleep ∧
      4 ≤ u.physicalActivity then some "No Disorder"
  else none

/-- The blended confidence vector after an override (lines 97-98): every
score softened by `* 0.3`, then the overridden label's entry replaced
by `0.7`. -/
def overriddenConf (pred : List ℚ) (ov : String) : List ℚ :=
  (pred.map (fun score => score * (3 / 10))).set (labelMapValues.indexOf ov) (7 / 10)

/-- The hybrid classification step applied to the model's flattened output
(lines 75-98): take `np.argmax`, look the class up in `label_map`, then
apply the override ladder; when an override fires, soften all scores by
`0.3` and force the overridden index to `0.7`. Each fallible Python
operation propagates its error. -/
def classifyE (u : UserInput) (prediction : List ℚ) :
    Except String (String × List ℚ) :=
  match npArgmax prediction with
  | .error e => .error e
  | .ok predicted_class =>
    match label_map.lookup predicted_class with
    | none => .error "KeyError"
    | some result =>
      match overrideRule u with
      | some ov =>
        match listIndex labelMapValues ov with
        | .error e => .error e
        | .ok idx =>
          match setAt (prediction.map (fun score => score * (3 / 10))) idx (7 / 10) with
          | .error e => .error e
          | .ok final => .ok (ov, final)
      | none => .ok (result, prediction)

/-- The final label alone. -/
def classifyLabel (u : UserInput) (prediction : List ℚ) : Except String String :=
  Except.map Prod.fst (classifyE u prediction)

/-- Tip strings of `generate_input_tips` (lines 18-44). -/
def tipLowSleep : String :=
  "😴 Try to increase your sleep to 7–9 hours consistently."

def tipOverSleep : String :=
  "😴 Oversleeping can also affect mood. Aim for 7–9 hours."

def tipQuality : String :=
  "🛌 Improve your sleep quality by maintaining a regular bedtime and avoiding screens before bed."

def tipActivity : String :=
  "🚶 Start light activities like walking to improve mood and sleep."

def tipStress : String :=
  "🧘 High stress detected. Try mindfulness, breathing exercises, or short breaks during the day."

def tipSteps : String :=
  "👟 Increase your daily steps — aim for at least 5000–8000 per day."

def tipDiet : String :=
  "🍎 Consider a balanced diet and moderate exercise for better weight management."

def tipElder : String :=
  "🧓 Gentle exercises like stretching or tai chi can improve physical and mental well-being."

/-- Lines 18-44: `generate_input_tips` sequentially appends at most one
tip per threshold rule, in the source's order; the low-sleep and oversleep
checks form one if/elif pair, everything else is independent. -/
def generate_input_tips (gender : Gender) (age : ℕ) (sleep_duration : ℚ)
    (quality_of_sleep : ℕ) (physical_activity : ℕ) (stress_level : ℕ)
    (bmi_category : BMICategory) (daily_steps : ℕ) : List String :=
  let tips : List String := []
  let tips := if sleep_duration < 6 then tips ++ [tipLowSleep]
    else if sleep_duration > 9 then tips ++ [tipOverSleep]
    else tips
  let tips := if quality_of_sleep < 4 then tips ++ [tipQuality] else tips
  let tips := if physical_activity = 0 then tips ++ [tipActivity] else tips
  let tips := if stress_level > 6 then tips ++ [tipStress] else tips
  let tips := if daily_steps < 3000 then tips ++ [tipSteps] else tips
  let tips := if bmi_category.toStr = "Obese" then tips ++ [tipDiet] else tips
  let tips := if 60 < age ∧ physical_activity < 3 then tips ++ [tipElder] else tips
  let _ := gender
  tips

/-- First-maximum semantics: index `i` holds a maximum of `l` and every
earlier entry is strictly smaller. -/
def isFirstMax (l : List ℚ) (i : ℕ) : Prop :=
  i < l.length ∧ (∀ j < l.length, l.getD j 0 ≤ l.getD i 0) ∧
    ∀ j < i, l.getD j 0 < l.getD i 0

/-- The spec's worked example: stress 9, sleep quality 2 trips the anxiety
override. -/
def exInput : UserInput :=
  { gender := .Male, age := 25, sleepDuration := 6, qualityOfSleep := 2,
    physicalActivity := 5, stressLevel := 9, bmiCategory := .Normal,
    dailySteps := 5000 }

/-- A mid-range submission on which no override rule fires. -/
def noOvInput : UserInput :=
  { gender := .Male, age := 25, sleepDuration := 6, qualityOfSleep := 5,
    physicalActivity := 5, stressLevel := 5, bmiCategory := .Normal,
    dailySteps := 5000 }

/-- Short sleep, little activity, high stress: trips the depression
override (and not the anxiety one, stress being below 9). -/
def depInput : UserInput :=
  { gender := .Male, age := 25, sleepDuration := 3, qualityOfSleep := 5,
    physicalActivity := 1, stressLevel := 7, bmiCategory := .Normal,
    dailySteps := 4000 }

/-- Calm, well-rested, active: trips the no-disorder override. -/
def calmInput : UserInput :=
  { gender := .Female, age := 40, sleepDuration := 8, qualityOfSleep := 8,
    physicalActivity := 5, stressLevel := 2, bmiCategory := .Normal,
    dailySteps := 6000 }

/-- The override ladder only ever produces one of the three class names. -/
lemma ov_cases {u : UserInput} {ov : String} (hov : overrideRule u = some ov) :
    ov = "Anxiety" ∨ ov = "Depression" ∨ ov = "No Disorder" := by
  unfold overrideRule at hov
  split_ifs at hov <;> simp_all

/-- The argmax of a 3-entry vector is one of the indices 0, 1, 2. -/
lemma argmax3_lt (a b c : ℚ) : argmaxAux [b, c] 1 0 a < 3 := by
  simp only [argmaxAux]
  split_ifs <;> norm_num

/-- Label lookup succeeds on 0, 1, 2 and returns the class name in
position order. -/
lemma lookup_lt3 (i : ℕ) (h : i < 3) :
    label_map.lookup i = some (labelMapValues.getD i "") := by
  interval_cases i <;> decide

/-- Core override path: with a 3-entry model output and a fired override,
classification succeeds with the override label and the blended scores. -/
lemma classify_override (u : UserInput) (a b c : ℚ) (ov : String)
    (hov : overrideRule u = some ov) :
    classifyE u [a, b, c] = .ok (ov, overriddenConf [a, b, c] ov) := by
  have hmem : ov ∈ labelMapValues := by
    rcases ov_cases hov with h | h | h <;> subst h <;> decide
  have hidx0 : labelMapValues.indexOf ov < 3 := by
    rcases ov_cases hov with h | h | h <;> subst h <;> decide
  have hidx : labelMapValues.indexOf ov <
      ([a, b, c].map (fun score => score * (3 / 10))).length := by
    simpa using hidx0
  simp only [classifyE, npArgmax]
  rw [lookup_lt3 _ (argmax3_lt a b c), hov]
  simp only [listIndex, if_pos hmem, setAt, if_pos hidx, overriddenConf]

/-- Core non-override path: with a 3-entry model output and no override,
classification succeeds with the argmax class name and untouched scores. -/
lemma classify_no_override (u : UserInput) (a b c : ℚ)
    (hov : overrideRule u = none) :
    classifyE u [a, b, c] =
      .ok (labelMapValues.getD (argmaxAux [b, c] 1 0 a) "", [a, b, c]) := by
  simp only [classifyE, npArgmax]
  rw [lookup_lt3 _ (argmax3_lt a b c), hov]

/-- The argmax of a 3-entry vector is the first index of a maximum. -/
lemma argmax3_firstMax (a b c : ℚ) :
    isFirstMax [a, b, c] (argmaxAux [b, c] 1 0 a) := by
  have expand : argmaxAux [b, c] 1 0 a =
      if b > a then (if c > b then 2 else 1) else (if c > a then 2 else 0) := by
    simp only [argmaxAux]
  rw [expand]
  unfold isFirstMax
  split_ifs with h1 h2 h2 <;> push_neg at h1 h2 <;>
    refine ⟨by norm_num, ?_, ?_⟩ <;> intro j hj <;>
    rcases j with _ | _ | _ | j <;>
    first
      | omega
      | (simp only [List.length_cons, List.length_nil] at hj; omega)
      | (simp only [List.getD_cons_zero, List.getD_cons_succ]; linarith)

/-- A list has at most one first-maximum index. -/
lemma isFirstMax_unique {l : List ℚ} {i j : ℕ} (hi : isFirstMax l i)
    (hj : isFirstMax l j) : i = j := by
  by_contra hne
  rcases Nat.lt_or_ge i j with h | h
  · have h1 := hj.2.2 i h
    have h2 := hi.2.1 j hj.1
    linarith
  · have hlt : j < i := by omega
    have h1 := hi.2.2 j hlt
    have h2 := hj.2.1 i hi.1
    linarith

/-- A score at most 1 softened by 0.3 stays strictly below 0.7. -/
lemma soft_lt (x : ℚ) (h1 : x ≤ 1) : x * (3 / 10) < 7 / 10 := by
  nlinarith

/-- C1: for every UserInput with stressLevel ≥ 9 and qualityOfSleep ≤ 3,
classification returns the label "Anxiety", regardless of the model's
confidence vector. -/
theorem anxiety_override_label (u : UserInput) (pred : List ℚ)
    (hlen : pred.length = 3) (hstress : 9 ≤ u.stressLevel)
    (hqos : u.qualityOfSleep ≤ 3) :
    classifyLabel u pred = .ok "Anxiety" := by
  obtain ⟨a, b, c, rfl⟩ := List.length_eq_three.mp hlen
  have hov : overrideRule u = some "Anxiety" := by
    unfold overrideRule
    rw [if_pos ⟨hstress, hqos⟩]
  unfold classifyLabel
  rw [classify_override u a b c _ hov]
  rfl

/-- C1 witness: the spec's worked example, with model output
[0.1, 0.2, 0.7], is labelled "Anxiety". -/
theorem anxiety_override_label_witness :
    classifyLabel exInput [1 / 10, 2 / 10, 7 / 10] = .ok "Anxiety" :=
  anxiety_override_label exInput [1 / 10, 2 / 10, 7 / 10] rfl (by decide)
    (by decide)

/-- C2: for every UserInput with sleepDuration ≤ 4, physicalActivity ≤ 2
and stressLevel ≥ 6 that does not satisfy the higher-priority anxiety
rule, classification returns the label "Depression", regardless of the
model's confidence vector. -/
theorem depression_override_label (u : UserInput) (pred : List ℚ)
    (hlen : pred.length = 3) (hsd : u.sleepDuration ≤ 4)
    (hpa : u.physicalActivity ≤ 2) (hsl : 6 ≤ u.stressLevel)
    (hnotanx : ¬(9 ≤ u.stressLevel ∧ u.qualityOfSleep ≤ 3)) :
    classifyLabel u pred = .ok "Depression" := by
  obtain ⟨a, b, c, rfl⟩ := List.length_eq_three.mp hlen
  have hov : overrideRule u = some "Depression" := by
    unfold overrideRule
    rw [if_neg hnotanx, if_pos ⟨hsd, hpa, hsl⟩]
  unfold classifyLabel
  rw [classify_override u a b c _ hov]
  rfl

/-- C2 witness: sleep 3h, activity 1, stress 7 (and stress below 9) is
labelled "Depression". -/
theorem depression_override_label_witness :
    classifyLabel depInput [1 / 10, 2 / 10, 7 / 10] = .ok "Depression" :=
  depression_override_label depInput [1 / 10, 2 / 10, 7 / 10] rfl (by decide)
    (by decide) (by decide) (by decide)

/-- C3: for every UserInput with stressLevel ≤ 3, sleepDuration ≥ 7,
qualityOfSleep ≥ 7 and physicalActivity ≥ 4, when neither higher-priority
override rule matched, classification returns the label "No Disorder",
regardless of the model's confidence vector. -/
theorem no_disorder_override_label (u : UserInput) (pred : List ℚ)
    (hlen : pred.length = 3) (hsl : u.stressLevel ≤ 3)
    (hsd : 7 ≤ u.sleepDuration) (hqs : 7 ≤ u.qualityOfSleep)
    (hpa : 4 ≤ u.physicalActivity)
    (h1 : ¬(9 ≤ u.stressLevel ∧ u.qualityOfSleep ≤ 3))
    (h2 : ¬(u.sleepDuration ≤ 4 ∧ u.physicalActivity ≤ 2 ∧ 6 ≤ u.stressLevel)) :
    classifyLabel u pred = .ok "No Disorder" := by
  obtain ⟨a, b, c, rfl⟩ := List.length_eq_three.mp hlen
  have hov : overrideRule u = some "No Disorder" := by
    unfold overrideRule
    rw [if_neg h1, if_neg h2, if_pos ⟨hsl, hsd, hqs, hpa⟩]
  unfold classifyLabel
  rw [classify_override u a b c _ hov]
  rfl

/-- C3 witness: stress 2, sleep 8h, quality 8, activity 5 is labelled
"No Disorder". -/
theorem no_disorder_override_label_witness :
    classifyLabel calmInput [1 / 10, 2 / 10, 7 / 10] = .ok "No Disorder" :=
  no_disorder_override_label calmInput [1 / 10, 2 / 10, 7 / 10] rfl
    (by decide) (by decide) (by decide) (by decide) (by decide) (by decide)

/-- C4: for every UserInput and length-3 model confidence vector, whenever
an override rule fires the returned confidence vector has exactly 0.7 at
the overridden label's class index and 0.3 times the original model
confidence at every other index, with no renormalization. -/
theorem override_confidence_blend (u : UserInput) (pred : List ℚ)
    (hlen : pred.length = 3) (ov : String)
    (hov : overrideRule u = some ov) :
    classifyE u pred = .ok (ov, overriddenConf pred ov) ∧
    (overriddenConf pred ov).getD (labelMapValues.indexOf ov) 0 = 7 / 10 ∧
    ∀ j < 3, j ≠ labelMapValues.indexOf ov →
      (overriddenConf pred ov).getD j 0 = pred.getD j 0 * (3 / 10) := by
  obtain ⟨a, b, c, rfl⟩ := List.length_eq_three.mp hlen
  refine ⟨classify_override u a b c ov hov, ?_⟩
  rcases ov_cases hov with h | h | h <;> subst h
  · have hidx : labelMapValues.indexOf "Anxiety" = 1 := by decide
    have hset : overriddenConf [a, b, c] "Anxiety" =
        [a * (3 / 10), 7 / 10, c * (3 / 10)] := by
      simp only [overriddenConf, hidx, List.map_cons, List.map_nil]
      rfl
    rw [hset, hidx]
    refine ⟨rfl, ?_⟩
    intro j hj hne
    interval_cases j <;> simp_all
  · have hidx : labelMapValues.indexOf "Depression" = 2 := by decide
    have hset : overriddenConf [a, b, c] "Depression" =
        [a * (3 / 10), b * (3 / 10), 7 / 10] := by
      simp only [overriddenConf, hidx, List.map_cons, List.map_nil]
      rfl
    rw [hset, hidx]
    refine ⟨rfl, ?_⟩
    intro j hj hne
    interval_cases j <;> simp_all
  · have hidx : labelMapValues.indexOf "No Disorder" = 0 := by decide
    have hset : overriddenConf [a, b, c] "No Disorder" =
        [7 / 10, b * (3 / 10), c * (3 / 10)] := by
      simp only [overriddenConf, hidx, List.map_cons, List.map_nil]
      rfl
    rw [hset, hidx]
    refine ⟨rfl, ?_⟩
    intro j hj hne
    interval_cases j <;> simp_all

/-- C4 witness: the spec's worked example, model output [0.1, 0.2, 0.7]
under the anxiety override, yields exactly [0.03, 0.7, 0.21]. -/
theorem override_confidence_blend_witness :
    classifyE exInput [1 / 10, 2 / 10, 7 / 10] =
      .ok ("Anxiety", overriddenConf [1 / 10, 2 / 10, 7 / 10] "Anxiety") ∧
    overriddenConf [1 / 10, 2 / 10, 7 / 10] "Anxiety" =
      [3 / 100, 7 / 10, 21 / 100] := by
  constructor
  · exact (override_confidence_blend exInput [1 / 10, 2 / 10, 7 / 10] rfl
      "Anxiety" (by decide)).1
  · have hidx : labelMapValues.indexOf "Anxiety" = 1 := by decide
    norm_num [overriddenConf, hidx, List.set]

/-- C5: for every UserInput on which no override rule fires, the returned
label is the class name of the first maximum of the 3-entry model output
(ties broken by the lowest index) and the returned confidence vector is
the model output unchanged. -/
theorem no_override_argmax (u : UserInput) (pred : List ℚ)
    (hlen : pred.length = 3)
    (h1 : ¬(9 ≤ u.stressLevel ∧ u.qualityOfSleep ≤ 3))
    (h2 : ¬(u.sleepDuration ≤ 4 ∧ u.physicalActivity ≤ 2 ∧ 6 ≤ u.stressLevel))
    (h3 : ¬(u.stressLevel ≤ 3 ∧ 7 ≤ u.sleepDuration ∧ 7 ≤ u.qualityOfSleep ∧
      4 ≤ u.physicalActivity))
    (i : ℕ) (hmax : isFirstMax pred i) :
    classifyE u pred = .ok (labelMapValues.getD i "", pred) := by
  obtain ⟨a, b, c, rfl⟩ := List.length_eq_three.mp hlen
  have hov : overrideRule u = none := by
    unfold overrideRule
    rw [if_neg h1, if_neg h2, if_neg h3]
  have hi : i = argmaxAux [b, c] 1 0 a :=
    isFirstMax_unique hmax (argmax3_firstMax a b c)
  rw [hi]
  exact classify_no_override u a b c hov

/-- C5 witness: a no-override input with model output [0, 1, 0] gets the
class name at index 1 and the output back unchanged. -/
theorem no_override_argmax_witness :
    classifyE noOvInput [0, 1, 0] = .ok (labelMapValues.getD 1 "", [0, 1, 0]) :=
  no_override_argmax noOvInput [0, 1, 0] rfl (by decide) (by decide)
    (by decide) 1 (by unfold isFirstMax; decide)

/-- In a 3-entry vector whose entry at `i` is 0.7 and whose other entries
are strictly below 0.7, position `i` is the strict top: it dominates the
others, it is the `np.max`, and it is the first maximum. -/
lemma strictTop3 (p q r : ℚ) (i : ℕ) (hi : i < 3)
    (htop : [p, q, r].getD i 0 = 7 / 10)
    (hothers : ∀ j < 3, j ≠ i → [p, q, r].getD j 0 < 7 / 10) :
    (∀ j < 3, j ≠ i → [p, q, r].getD j 0 < [p, q, r].getD i 0) ∧
    npMax [p, q, r] = .ok (7 / 10) ∧ isFirstMax [p, q, r] i := by
  unfold isFirstMax
  interval_cases i
  · have h1 := hothers 1 (by omega) (by omega)
    have h2 := hothers 2 (by omega) (by omega)
    simp only [List.getD_cons_zero, List.getD_cons_succ] at htop h1 h2
    subst htop
    refine ⟨?_, ?_, by norm_num, ?_, ?_⟩
    · intro j hj hne
      rcases j with _ | _ | _ | j <;>
        first
          | omega
          | (simp only [List.getD_cons_zero, List.getD_cons_succ]; linarith)
    · simp only [npMax, List.foldl]
      rw [max_eq_left h1.le, max_eq_left h2.le]
    · intro j hj
      rcases j with _ | _ | _ | j <;>
        first
          | omega
          | (simp only [List.length_cons, List.length_nil] at hj; omega)
          | (simp only [List.getD_cons_zero, List.getD_cons_succ]; linarith)
    · intro j hj
      omega
  · have h0 := hothers 0 (by omega) (by omega)
    have h2 := hothers 2 (by omega) (by omega)
    simp only [List.getD_cons_zero, List.getD_cons_succ] at htop h0 h2
    subst htop
    refine ⟨?_, ?_, by norm_num, ?_, ?_⟩
    · intro j hj hne
      rcases j with _ | _ | _ | j <;>
        first
          | omega
          | (simp only [List.getD_cons_zero, List.getD_cons_succ]; linarith)
    · simp only [npMax, List.foldl]
      rw [max_eq_right h0.le, max_eq_left h2.le]
    · intro j hj
      rcases j with _ | _ | _ | j <;>
        first
          | omega
          | (simp only [List.length_cons, List.length_nil] at hj; omega)
          | (simp only [List.getD_cons_zero, List.getD_cons_succ]; linarith)
    · intro j hj
      rcases j with _ | j <;>
        first
          | omega
          | (simp only [List.getD_cons_zero, List.getD_cons_succ]; linarith)
  · have h0 := hothers 0 (by omega) (by omega)
    have h1 := hothers 1 (by omega) (by omega)
    simp only [List.getD_cons_zero, List.getD_cons_succ] at htop h0 h1
    subst htop
    refine ⟨?_, ?_, by norm_num, ?_, ?_⟩
    · intro j hj hne
      rcases j with _ | _ | _ | j <;>
        first
          | omega
          | (simp only [List.getD_cons_zero, List.getD_cons_succ]; linarith)
    · simp only [npMax, List.foldl]
      rw [max_eq_right (le_of_lt (max_lt h0 h1))]
    · intro j hj
      rcases j with _ | _ | _ | j <;>
        first
          | omega
          | (simp only [List.length_cons, List.length_nil] at hj; omega)
          | (simp only [List.getD_cons_zero, List.getD_cons_succ]; linarith)
    · intro j hj
      rcases j with _ | _ | j <;>
        first
          | omega
          | (simp only [List.getD_cons_zero, List.getD_cons_succ]; linarith)

/-- C9: for every UserInput and 3-entry model confidence vector with all
entries in [0, 1], if an override fires then the returned vector's 0.7
entry at the overridden label's index is its strict maximum, the top
confidence recorded for the log equals 0.7, and the overridden label's
index is also the argmax of the returned confidences. -/
theorem override_strict_top (u : UserInput) (pred : List ℚ)
    (hlen : pred.length = 3) (hin : ∀ x ∈ pred, 0 ≤ x ∧ x ≤ 1)
    (ov : String) (hov : overrideRule u = some ov) :
    classifyE u pred = .ok (ov, overriddenConf pred ov) ∧
    (∀ j < 3, j ≠ labelMapValues.indexOf ov →
      (overriddenConf pred ov).getD j 0 <
        (overriddenConf pred ov).getD (labelMapValues.indexOf ov) 0) ∧
    npMax (overriddenConf pred ov) = .ok (7 / 10) ∧
    isFirstMax (overriddenConf pred ov) (labelMapValues.indexOf ov) := by
  obtain ⟨a, b, c, rfl⟩ := List.length_eq_three.mp hlen
  obtain ⟨ha0, ha1⟩ := hin a (by simp)
  obtain ⟨hb0, hb1⟩ := hin b (by simp)
  obtain ⟨hc0, hc1⟩ := hin c (by simp)
  have hA := soft_lt a ha1
  have hB := soft_lt b hb1
  have hC := soft_lt c hc1
  refine ⟨classify_override u a b c ov hov, ?_⟩
  rcases ov_cases hov with h | h | h <;> subst h
  · have hidx : labelMapValues.indexOf "Anxiety" = 1 := by decide
    have hset : overriddenConf [a, b, c] "Anxiety" =
        [a * (3 / 10), 7 / 10, c * (3 / 10)] := by
      simp only [overriddenConf, hidx, List.map_cons, List.map_nil]
      rfl
    rw [hset, hidx]
    refine strictTop3 _ _ _ 1 (by omega) rfl ?_
    intro j hj hne
    interval_cases j <;> simp_all
  · have hidx : labelMapValues.indexOf "Depression" = 2 := by decide
    have hset : overriddenConf [a, b, c] "Depression" =
        [a * (3 / 10), b * (3 / 10), 7 / 10] := by
      simp only [overriddenConf, hidx, List.map_cons, List.map_nil]
      rfl
    rw [hset, hidx]
    refine strictTop3 _ _ _ 2 (by omega) rfl ?_
    intro j hj hne
    interval_cases j <;> simp_all
  · have hidx : labelMapValues.indexOf "No Disorder" = 0 := by decide
    have hset : overriddenConf [a, b, c] "No Disorder" =
        [7 / 10, b * (3 / 10), c * (3 / 10)] := by
      simp only [overriddenConf, hidx, List.map_cons, List.map_nil]
      rfl
    rw [hset, hidx]
    refine strictTop3 _ _ _ 0 (by omega) rfl ?_
    intro j hj hne
    interval_cases j <;> simp_all

/-- C9 witness: the anxiety-override example with model output [0, 0, 1]
records top confidence 0.7. -/
theorem override_strict_top_witness :
    npMax (overriddenConf [0, 0, 1] "Anxiety") = .ok (7 / 10) :=
  (override_strict_top exInput [0, 0, 1] rfl (by decide) "Anxiety"
    (by decide)).2.2.1

/-- C6: the feature encoder produces the 8-element vector in the order
[gender, age, sleepDuration, qualityOfSleep, physicalActivity,
stressLevel, bmiCategory, dailySteps], with Male encoded as 1, Female as
0, and the BMI category as its index in the option list. -/
theorem encoder_layout (u : UserInput) :
    input_data u = [gender_val u.gender, (u.age : ℚ), u.sleepDuration,
      (u.qualityOfSleep : ℚ), (u.physicalActivity : ℚ),
      (u.stressLevel : ℚ), bmi_val u.bmiCategory, (u.dailySteps : ℚ)] ∧
    (input_data u).length = 8 ∧
    gender_val .Male = 1 ∧ gender_val .Female = 0 ∧
    bmi_val .Underweight = 0 ∧ bmi_val .Normal = 1 ∧
    bmi_val .Overweight = 2 ∧ bmi_val .Obese = 3 := by
  have h0 : bmiOptions.indexOf "Underweight" = 0 := by decide
  have h1 : bmiOptions.indexOf "Normal" = 1 := by decide
  have h2 : bmiOptions.indexOf "Overweight" = 2 := by decide
  have h3 : bmiOptions.indexOf "Obese" = 3 := by decide
  refine ⟨rfl, rfl, by decide, by decide, ?_, ?_, ?_, ?_⟩ <;>
    simp [bmi_val, BMICategory.toStr, h0, h1, h2, h3]

/-- Appending one optional element equals concatenating an optional
singleton. -/
lemma step_append (t : List String) (c : Prop) [Decidable c] (x : String) :
    (if c then t ++ [x] else t) = t ++ (if c then [x] else []) := by
  split_ifs <;> simp

/-- The if/elif pair of the sleep-duration rule, as one optional
singleton. -/
lemma step_append2 (t : List String) (c d : Prop) [Decidable c]
    [Decidable d] (x y : String) :
    (if c then t ++ [x] else if d then t ++ [y] else t) =
      t ++ (if c then [x] else if d then [y] else []) := by
  split_ifs <;> simp

/-- The sequential tip appends are the concatenation of one optional
singleton per rule, in the fixed listed order. -/
lemma tips_concat (g : Gender) (age : ℕ) (sd : ℚ) (qs pa sl : ℕ)
    (bc : BMICategory) (ds : ℕ) :
    generate_input_tips g age sd qs pa sl bc ds =
      (if sd < 6 then [tipLowSleep] else if sd > 9 then [tipOverSleep] else []) ++
      (if qs < 4 then [tipQuality] else []) ++
      (if pa = 0 then [tipActivity] else []) ++
      (if sl > 6 then [tipStress] else []) ++
      (if ds < 3000 then [tipSteps] else []) ++
      (if bc.toStr = "Obese" then [tipDiet] else []) ++
      (if 60 < age ∧ pa < 3 then [tipElder] else []) := by
  simp only [generate_input_tips, step_append, step_append2, List.nil_append]

/-- C7: tip generation returns exactly the tips of the eight threshold
rules, appended in the fixed listed order, each rule contributing at most
one tip, the low-sleep and oversleep tips mutually exclusive and all
other rules independent; the listed all-healthy input yields the empty
list. -/
theorem tips_rule_structure (g : Gender) (age : ℕ) (sd : ℚ) (qs pa sl : ℕ)
    (bc : BMICategory) (ds : ℕ) :
    (generate_input_tips g age sd qs pa sl bc ds =
      (if sd < 6 then [tipLowSleep] else if sd > 9 then [tipOverSleep] else []) ++
      (if qs < 4 then [tipQuality] else []) ++
      (if pa = 0 then [tipActivity] else []) ++
      (if sl > 6 then [tipStress] else []) ++
      (if ds < 3000 then [tipSteps] else []) ++
      (if bc.toStr = "Obese" then [tipDiet] else []) ++
      (if 60 < age ∧ pa < 3 then [tipElder] else [])) ∧
    generate_input_tips g 30 7 8 5 2 BMICategory.Normal 8000 = [] := by
  refine ⟨tips_concat g age sd qs pa sl bc ds, ?_⟩
  rw [tips_concat]
  norm_num [BMICategory.toStr]
  decide

/-- C10: tip generation does not depend on the gender field: two inputs
differing only in gender receive identical tip lists. -/
theorem tips_gender_independent (g g' : Gender) (age : ℕ) (sd : ℚ)
    (qs pa sl : ℕ) (bc : BMICategory) (ds : ℕ) :
    generate_input_tips g age sd qs pa sl bc ds =
      generate_input_tips g' age sd qs pa sl bc ds := rfl

/-- C8 counterexample: a malformed model output of length 2 does not make
classification fail — on a no-override input it is processed to an
ordinary result, with the malformed vector passed through unchanged. -/
theorem malformed_output_no_failure :
    [(3 : ℚ) / 10, 7 / 10].length ≠ 3 ∧
    classifyE noOvInput [3 / 10, 7 / 10] = .ok ("Anxiety", [3 / 10, 7 / 10]) := by
  constructor
  · decide
  · have hov : overrideRule noOvInput = none := by decide
    have harg : npArgmax [3 / 10, 7 / 10] = .ok 1 := by
      norm_num [npArgmax, argmaxAux]
    simp only [classifyE, harg, hov]
    simp [List.lookup, label_map]

/-- C8 amended: classification performs no shape validation; it fails
(with a propagated lookup error, no retry and no fallback) exactly when a
fallible step fails — in particular whenever the argmax of the model
output is not a key of the label map. -/
theorem argmax_key_error (u : UserInput) (pred : List ℚ) (i : ℕ)
    (hi : npArgmax pred = .ok i) (hk : label_map.lookup i = none) :
    classifyE u pred = .error "KeyError" := by
  simp only [classifyE, hi, hk]

/-- C8 amended witness: a length-4 output with its maximum last has
argmax 3, which is no key of the label map, and classification fails. -/
theorem argmax_key_error_witness :
    classifyE noOvInput [0, 0, 0, 1] = .error "KeyError" :=
  argmax_key_error noOvInput [0, 0, 0, 1] 3 rfl (by decide)

end MentalHealth
